import Mathlib

/-!
Verification of the device-affinity / step-plan setup logic of
`build/android/pylib/perf/setup.py` (Python 2).

The embedding is shallow:
* Device identifiers and step names are `String` (hardware serials).
  `devil.android.device_utils.DeviceUtils` objects compare and stringify by
  their serial, so a device is represented by that serial directly.
* Python `sorted()` on serials / step names is byte-wise lexicographic on
  ASCII strings; `pySorted` realises it as an insertion sort over a
  character-wise comparison (any correct sort agrees with it, since the
  order is total and antisymmetric).
* File/JSON inputs are modelled by an `Env` record holding, for each path
  the options may name, the outcome of reading and parsing it:
  `Except` error for an `IOError`/parse failure, or the parsed value.
* Python exceptions escaping a function are modelled by an `Except PyErr`
  result; `PyErr` lists the raw exception kinds the code can raise.
-/

namespace PerfSetup

/-- Character-wise lexicographic comparison of two character lists
(Python 2 byte-string comparison, restricted to the code-point order;
it coincides with the byte order on ASCII serials and step names). -/
def charListLe : List Char → List Char → Bool
  | [], _ => true
  | _ :: _, [] => false
  | a :: as, b :: bs =>
    if a < b then true
    else if b < a then false
    else charListLe as bs

/-- Python `<=` on strings, as a Boolean function on the underlying
character lists. -/
def strLe (a b : String) : Bool := charListLe a.data b.data

/-- The comparison `strLe` as a relation, for use with `List.insertionSort`
and `List.Sorted`. -/
def StrLe (a b : String) : Prop := strLe a b = true

instance : DecidableRel StrLe := fun a b => instDecidableEqBool (strLe a b) true

/-- Python `sorted()` on a list of strings. -/
def pySorted (l : List String) : List String := List.insertionSort StrLe l

theorem charListLe_total (l1 l2 : List Char) :
    charListLe l1 l2 = true ∨ charListLe l2 l1 = true := by
  induction l1 generalizing l2 with
  | nil => left; rfl
  | cons a as ih =>
    cases l2 with
    | nil => right; rfl
    | cons b bs =>
      rcases lt_trichotomy a b with h | h | h
      · left; simp [charListLe, h]
      · subst h; simpa [charListLe] using ih bs
      · right; simp [charListLe, h]

theorem charListLe_trans (l1 l2 l3 : List Char) (h12 : charListLe l1 l2 = true)
    (h23 : charListLe l2 l3 = true) : charListLe l1 l3 = true := by
  induction l1 generalizing l2 l3 with
  | nil => rfl
  | cons a as ih =>
    cases l2 with
    | nil => simp [charListLe] at h12
    | cons b bs =>
      cases l3 with
      | nil => simp [charListLe] at h23
      | cons c cs =>
        simp only [charListLe] at h12 h23 ⊢
        by_cases hab : a < b
        · by_cases hbc : b < c
          · simp [hab.trans hbc]
          · by_cases hcb : c < b
            · simp [asymm hcb, hcb] at h23
            · have hbc2 : b = c := le_antisymm (not_lt.1 hcb) (not_lt.1 hbc)
              subst hbc2; simp [hab]
        · by_cases hba : b < a
          · simp [hab, hba] at h12
          · have hab2 : a = b := le_antisymm (not_lt.1 hba) (not_lt.1 hab)
            subst hab2
            simp only [lt_irrefl, if_neg (lt_irrefl a)] at h12
            by_cases hac : a < c
            · simp [hac]
            · by_cases hca : c < a
              · simp [hac, hca] at h23
              · have hac2 : a = c := le_antisymm (not_lt.1 hca) (not_lt.1 hac)
                subst hac2
                simp only [lt_irrefl, if_neg (lt_irrefl a)] at h23 ⊢
                exact ih bs cs h12 h23

instance : IsTotal String StrLe := ⟨fun a b => charListLe_total a.data b.data⟩

instance : IsTrans String StrLe := ⟨fun a b c => charListLe_trans a.data b.data c.data⟩

theorem pySorted_perm (l : List String) : List.Perm (pySorted l) l :=
  List.perm_insertionSort StrLe l

theorem pySorted_sorted (l : List String) : List.Sorted StrLe (pySorted l) :=
  List.sorted_insertionSort StrLe l

/-- Python truthiness of an optional string option (`None` and `''` are
falsy; `if test_options.steps:` style tests). -/
def optStrTruthy : Option String → Bool
  | none => false
  | some s => !s.isEmpty

/-- Python truthiness of an optional command (`None` and `[]` are falsy;
`if test_options.single_step:`). -/
def optCmdTruthy : Option (List String) → Bool
  | none => false
  | some l => !l.isEmpty

/-- One entry of the `steps` mapping of a steps document:
`{'device_affinity': int, 'cmd': [...]}`. -/
structure StepSpec where
  device_affinity : Int
  cmd : List String
deriving DecidableEq

/-- A parsed steps document (the result of `json.load` on the steps file, or
the dict built by `_GetStepsDictFromSingleStep`).  Only the keys the code
reads are modelled; `Option` on a field models absence of that key, so that
a Python `KeyError` on access can be expressed. -/
structure StepsDict where
  version : Option Int
  steps : Option (List (String × StepSpec))
deriving DecidableEq

/-- The `PerformanceOptions` fields `setup.py` reads.  Python `None` is
`none`; the empty string / empty list are kept distinct because the code
tests the fields for truthiness, not for `None`. -/
structure TestOptions where
  single_step : Option (List String)
  steps : Option String
  flaky_steps : Option String
  test_filter : Option String
  known_devices_file : Option String
deriving DecidableEq

/-- Raw failure of reading-and-parsing one of the JSON sources:
`IOError` from opening/reading the file, `ValueError` from `json.load`. -/
inductive ReadErr
  | ioError
  | valueError
deriving DecidableEq

/-- The Python exception kinds that can escape the embedded functions. -/
inductive PyErr
  | ioError
  | valueError
  | assertionError
  | keyError
  | typeError
deriving DecidableEq

def ReadErr.toPyErr : ReadErr → PyErr
  | .ioError => .ioError
  | .valueError => .valueError

/-- Classification of the raised exception kinds into the taxonomy of the
spec (§7): `assert steps['version'] == 1` failing (`AssertionError`) and a
missing required key (`KeyError`) are the code's form of a configuration
validation failure; `IOError`/`ValueError` leaking from `open`/`json.load`
and `TypeError` from subscripting `None` are raw error kinds, not
validation errors. -/
def PyErr.isConfigValidation : PyErr → Bool
  | .assertionError => true
  | .keyError => true
  | _ => false

/-- The outcomes of reading the external sources named by the options.
`rosterLoad` is the outcome of `device_list.GetPersistentDeviceList` at
`known_devices_file` (the roster collaborator signals unavailability with
`IOError`, the only exception `_GetAllDevices` can see from it);
`stepsLoad` is the outcome of `json.load(file(test_options.steps))`;
`flakyLoad` likewise for the flaky-steps file.  Each field is only
consulted when the corresponding option is truthy. -/
structure Env where
  rosterLoad : Except Unit (List String)
  stepsLoad : Except ReadErr StepsDict
  flakyLoad : Except ReadErr (List String)

/-- `_GetAllDevices(active_devices, devices_path)` (setup.py:20-40).  The
second argument packs the path truthiness together with the outcome of
loading it: `none` models a falsy `devices_path`; `some (.error _)` a load
attempt that raised `IOError` (caught, falls back to the active devices);
`some (.ok devs)` a successful load.  A successfully loaded roster that is
empty while the active set is not falls back to the active devices.  The
result is always `sorted(devices)`. -/
def GetAllDevices (active : List String)
    (roster : Option (Except Unit (List String))) : List String :=
  match roster with
  | none => pySorted active
  | some (Except.error _) => pySorted active
  | some (Except.ok devs) =>
    if devs.isEmpty && !active.isEmpty then pySorted active else pySorted devs

/-- `_GetStepsDictFromSingleStep` (setup.py:43-54): the synthesized
one-step plan for `test_options.single_step`. -/
def GetStepsDictFromSingleStep (opts : TestOptions) : StepsDict :=
  { version := some 1,
    steps := some [("single_step",
      { device_affinity := 0, cmd := opts.single_step.getD [] })] }

/-- `_GetStepsDict` (setup.py:57-66).  With a truthy `single_step` it
builds the one-step plan; with a truthy `steps` path it loads the file
(a read/parse failure propagates raw), reads `steps['version']`
(`KeyError` if absent) and asserts it equals 1 (`AssertionError`
otherwise); with neither it falls off the end, returning Python `None`,
modelled as `.ok none`. -/
def GetStepsDict (opts : TestOptions) (env : Env) : Except PyErr (Option StepsDict) :=
  if optCmdTruthy opts.single_step then
    Except.ok (some (GetStepsDictFromSingleStep opts))
  else if optStrTruthy opts.steps then
    match env.stepsLoad with
    | Except.error e => Except.error e.toPyErr
    | Except.ok doc =>
      match doc.version with
      | none => Except.error PyErr.keyError
      | some v => if v = 1 then Except.ok (some doc) else Except.error PyErr.assertionError
  else Except.ok none

/-- Scan a list up to the first occurrence of `stop`; returns the part
before it and the part after it, or `none` when `stop` never occurs
(the `while j < n and pat[j] != ']'` scan of `fnmatch.translate`). -/
def spanTo (stop : Char) : List Char → Option (List Char × List Char)
  | [] => none
  | c :: cs =>
    if c = stop then some ([], cs)
    else
      match spanTo stop cs with
      | none => none
      | some (a, b) => some (c :: a, b)

/-- Does the bracket expression start with the negation marker `!`? -/
def negFlag (l : List Char) : Bool := l.head? = some '!'

/-- The bracket-expression characters after the optional `!`. -/
def afterNeg (l : List Char) : List Char := if negFlag l then l.tail else l

/-- Does a literal `]` head the set (the `if pat[j] == ']': j += 1` skip of
`fnmatch.translate`)? -/
def litFlag (l : List Char) : Bool := (afterNeg l).head? = some ']'

/-- The bracket-expression characters the closing `]` is searched in. -/
def classBody (l : List Char) : List Char :=
  if litFlag l then (afterNeg l).tail else afterNeg l

/-- Parse a bracket expression, given the characters after the opening
`[`, following `fnmatch.translate`: an optional leading `!` negates; a
(then) leading `]` is part of the set; the set runs to the next `]`.
Returns `(negated, set characters, remaining pattern)`, or `none` when no
closing `]` exists, in which case the `[` is a literal character. -/
def scanClass (l : List Char) : Option (Bool × List Char × List Char) :=
  match spanTo ']' (classBody l) with
  | none => none
  | some (a, b) => some (negFlag l, (if litFlag l then ']' :: a else a), b)

/-- Membership of a character in a bracket-expression set, with regular
expression character-class semantics as produced by `fnmatch.translate`:
`x-y` (with `-` neither first nor last) is an inclusive range, every other
character stands for itself.  (A reversed range, which makes the
translated regular expression fail to compile in Python, matches
nothing here.) -/
def classMatch : List Char → Char → Bool
  | a :: '-' :: b :: rest, c => (decide (a ≤ c) && decide (c ≤ b)) || classMatch rest c
  | a :: rest, c => (a == c) || classMatch rest c
  | [], _ => false

/-- One token of a translated glob pattern: `*` (`.*`), `?` (`.`), a
literal character, or a bracket expression. -/
inductive GlobTok
  | star
  | anyChar
  | lit (c : Char)
  | cls (neg : Bool) (items : List Char)
deriving DecidableEq

theorem spanTo_length (stop : Char) (l a b : List Char)
    (h : spanTo stop l = some (a, b)) : b.length < l.length := by
  induction l generalizing a b with
  | nil => simp [spanTo] at h
  | cons c cs ih =>
    simp only [spanTo] at h
    split at h
    · cases h
      simp
    · cases hrec : spanTo stop cs with
      | none => rw [hrec] at h; cases h
      | some p =>
        rw [hrec] at h
        obtain ⟨a2, b2⟩ := p
        cases h
        exact Nat.lt_trans (ih a2 b hrec) (Nat.lt_succ_self _)

theorem classBody_length (l : List Char) : (classBody l).length ≤ l.length := by
  have htail : ∀ m : List Char, m.tail.length ≤ m.length := by
    intro m; cases m <;> simp
  have h1 : (afterNeg l).length ≤ l.length := by
    unfold afterNeg; split
    · exact htail l
    · exact Nat.le_refl _
  unfold classBody; split
  · exact Nat.le_trans (htail _) h1
  · exact h1

theorem scanClass_length (l : List Char) (neg : Bool) (items rest : List Char)
    (h : scanClass l = some (neg, items, rest)) : rest.length < l.length := by
  simp only [scanClass] at h
  cases hs : spanTo ']' (classBody l) with
  | none => rw [hs] at h; cases h
  | some p =>
    rw [hs] at h
    obtain ⟨a, b⟩ := p
    cases h
    exact Nat.lt_of_lt_of_le (spanTo_length ']' _ a rest hs) (classBody_length l)

/-- Tokenization of a glob pattern, mirroring the scan loop of
`fnmatch.translate`.  The fuel argument only bounds the recursion depth
(every step consumes at least one pattern character), keeping the
recursion structural so that the kernel can evaluate it. -/
def tokenizeFuel : Nat → List Char → List GlobTok
  | 0, _ => []
  | _ + 1, [] => []
  | fuel + 1, '*' :: ps => GlobTok.star :: tokenizeFuel fuel ps
  | fuel + 1, '?' :: ps => GlobTok.anyChar :: tokenizeFuel fuel ps
  | fuel + 1, '[' :: ps =>
    (match scanClass ps with
     | none => GlobTok.lit '[' :: tokenizeFuel fuel ps
     | some (neg, items, rest) => GlobTok.cls neg items :: tokenizeFuel fuel rest)
  | fuel + 1, c :: ps => GlobTok.lit c :: tokenizeFuel fuel ps

def tokenize (pat : List Char) : List GlobTok := tokenizeFuel pat.length pat

/-- Matching a (tokenized) pattern against a character list, anchored at
both ends (`fnmatch.translate` appends a `\Z` anchor and `re.match`
anchors the start).  `star` may swallow any number of leading characters.
The fuel argument again only bounds the recursion depth: every step
shrinks the token list or the character list. -/
def matchToksFuel : Nat → List GlobTok → List Char → Bool
  | 0, _, _ => false
  | _ + 1, [], s => s.isEmpty
  | fuel + 1, GlobTok.star :: ts, s =>
    matchToksFuel fuel ts s ||
      (match s with
       | [] => false
       | _ :: cs => matchToksFuel fuel (GlobTok.star :: ts) cs)
  | fuel + 1, GlobTok.anyChar :: ts, s =>
    (match s with
     | [] => false
     | _ :: cs => matchToksFuel fuel ts cs)
  | fuel + 1, GlobTok.lit p :: ts, s =>
    (match s with
     | [] => false
     | c :: cs => (p == c) && matchToksFuel fuel ts cs)
  | fuel + 1, GlobTok.cls neg items :: ts, s =>
    (match s with
     | [] => false
     | c :: cs =>
       (if neg then !(classMatch items c) else classMatch items c) &&
         matchToksFuel fuel ts cs)

/-- `fnmatch.fnmatch(name, pat)` on POSIX, where `os.path.normcase` is the
identity, so matching is case-sensitive. -/
def fnmatch (name pat : String) : Bool :=
  matchToksFuel (pat.data.length + name.data.length + 1) (tokenize pat.data) name.data

/-- `fnmatch.filter(names, pat)`: the order-preserving sublist of matching
names. -/
def fnmatchFilter (names : List String) (pat : String) : List String :=
  names.filter (fun n => fnmatch n pat)

/-- The filtering step of `Setup` (setup.py:93-95): with a truthy
`test_filter` the sorted step names are narrowed by `fnmatch.filter`,
otherwise left unchanged. -/
def filterSteps (stepNames : List String) (pattern : Option String) : List String :=
  if optStrTruthy pattern then fnmatchFilter stepNames (pattern.getD "") else stepNames

/-- The argument tuple `test_runner.TestRunner(test_options, device,
shard_index, len(all_devices), steps_dict, flaky_steps)` captured by a
runner binding (the runner itself is an external collaborator; only the
binding is modelled). -/
structure TestRunner where
  options : TestOptions
  device : String
  shard_index : Int
  num_devices : Nat
  steps_dict : StepsDict
  flaky_steps : List String
deriving DecidableEq

/-- The closure `TestRunnerFactory(device, shard_index)` defined inside
`Setup` (setup.py:102-107): a runner binding when `str(device)` is in the
active device set, Python `None` otherwise.  `num_devices` is
`len(all_devices)`, fixed by the captured resolved device list. -/
def TestRunnerFactory (opts : TestOptions) (active : List String)
    (all_devices : List String) (steps_dict : StepsDict)
    (flaky_steps : List String) (device : String) (shard_index : Int) :
    Option TestRunner :=
  if device ∈ active then
    some { options := opts, device := device, shard_index := shard_index,
           num_devices := all_devices.length, steps_dict := steps_dict,
           flaky_steps := flaky_steps }
  else none

/-- The roster argument `Setup` hands to `_GetAllDevices`: `none` when
`test_options.known_devices_file` is falsy, otherwise the outcome of
loading that file. -/
def rosterInput (opts : TestOptions) (env : Env) :
    Option (Except Unit (List String)) :=
  if optStrTruthy opts.known_devices_file then some env.rosterLoad else none

/-- The flaky-steps block of `Setup` (setup.py:97-100): `[]` when
`test_options.flaky_steps` is falsy, otherwise the outcome of
`json.load(file(test_options.flaky_steps))`, whose read/parse failure
propagates raw. -/
def flakyResult (opts : TestOptions) (env : Env) : Except PyErr (List String) :=
  if optStrTruthy opts.flaky_steps then
    match env.flakyLoad with
    | Except.error e => Except.error e.toPyErr
    | Except.ok l => Except.ok l
  else Except.ok []

/-- The tuple `(TestRunnerFactory, tests, devices)` returned by `Setup`. -/
structure SetupReturn where
  factory : String → Int → Option TestRunner
  tests : List String
  devices : List String

/-- `Setup(test_options, active_devices)` (setup.py:69-109), with the
external collaborators (build-type setting, output-directory reset,
leftover-process cleanup) out of scope per the spec.  The step plan is
loaded (`.ok none`, Python `None`, makes the subsequent
`steps_dict['steps']` subscript raise `TypeError`), its `steps` keys are
read (`KeyError` if the key is absent), sorted and optionally filtered,
the flaky list is loaded, and the factory closure is built over the
resolved devices and the full, unfiltered plan. -/
def Setup (opts : TestOptions) (active : List String) (env : Env) :
    Except PyErr SetupReturn :=
  match GetStepsDict opts env with
  | Except.error e => Except.error e
  | Except.ok none => Except.error PyErr.typeError
  | Except.ok (some steps_dict) =>
    match steps_dict.steps with
    | none => Except.error PyErr.keyError
    | some smap =>
      match flakyResult opts env with
      | Except.error e => Except.error e
      | Except.ok flaky_steps =>
        Except.ok
          { factory := TestRunnerFactory opts active
              (GetAllDevices active (rosterInput opts env)) steps_dict flaky_steps,
            tests := filterSteps (pySorted (smap.map Prod.fst)) opts.test_filter,
            devices := GetAllDevices active (rosterInput opts env) }

/-- Characterization of a successful `Setup` run: the loaded plan, its
step mapping and the flaky list exist, and every component of the returned
tuple is determined by them. -/
theorem Setup_ok (opts : TestOptions) (active : List String) (env : Env)
    (res : SetupReturn) (h : Setup opts active env = Except.ok res) :
    ∃ sd smap flaky,
      GetStepsDict opts env = Except.ok (some sd) ∧
      sd.steps = some smap ∧
      flakyResult opts env = Except.ok flaky ∧
      res.factory = TestRunnerFactory opts active
        (GetAllDevices active (rosterInput opts env)) sd flaky ∧
      res.tests = filterSteps (pySorted (smap.map Prod.fst)) opts.test_filter ∧
      res.devices = GetAllDevices active (rosterInput opts env) := by
  unfold Setup at h
  cases hG : GetStepsDict opts env with
  | error e => rw [hG] at h; cases h
  | ok o =>
    rw [hG] at h
    cases o with
    | none => cases h
    | some sd =>
      dsimp only at h
      cases hs : sd.steps with
      | none => rw [hs] at h; cases h
      | some smap =>
        rw [hs] at h
        cases hf : flakyResult opts env with
        | error e => rw [hf] at h; cases h
        | ok flaky =>
          rw [hf] at h
          cases h
          exact ⟨sd, smap, flaky, rfl, hs, rfl, rfl, rfl, rfl⟩

/-- C1: for every roster source that loads successfully and yields at
least one device, the resolved device list equals the roster's devices
sorted lexicographically by identifier (a sorted permutation of the
roster), regardless of the contents of the active device set. -/
theorem C1_resolved_is_sorted_roster (active roster : List String)
    (h : roster ≠ []) :
    GetAllDevices active (some (Except.ok roster)) = pySorted roster ∧
    List.Perm (GetAllDevices active (some (Except.ok roster))) roster ∧
    List.Sorted StrLe (GetAllDevices active (some (Except.ok roster))) := by
  have he : roster.isEmpty = false := by
    cases roster with
    | nil => exact absurd rfl h
    | cons a as => rfl
  have hg : GetAllDevices active (some (Except.ok roster)) = pySorted roster := by
    simp [GetAllDevices, he]
  exact ⟨hg, hg ▸ pySorted_perm roster, hg ▸ pySorted_sorted roster⟩

theorem C1_resolved_is_sorted_roster_witness :
    (GetAllDevices ["C"] (some (Except.ok ["B", "A"])) = pySorted ["B", "A"] ∧
     List.Perm (GetAllDevices ["C"] (some (Except.ok ["B", "A"]))) ["B", "A"] ∧
     List.Sorted StrLe (GetAllDevices ["C"] (some (Except.ok ["B", "A"])))) ∧
    GetAllDevices ["C"] (some (Except.ok ["B", "A"])) = ["A", "B"] :=
  ⟨C1_resolved_is_sorted_roster ["C"] ["B", "A"] (by decide), by decide⟩

/-- C2: with an absent roster source, a roster load that raises `IOError`,
or a roster that loads empty while the active set is non-empty, the
resolver returns the sorted active device set; no exception escapes (the
embedded resolver is a total function into plain lists — the `IOError`
from the load is the only exception the roster collaborator raises, and
it is caught). -/
theorem C2_fallback_to_active (active : List String) (e : Unit) :
    GetAllDevices active none = pySorted active ∧
    GetAllDevices active (some (Except.error e)) = pySorted active ∧
    (active ≠ [] → GetAllDevices active (some (Except.ok [])) = pySorted active) ∧
    List.Perm (GetAllDevices active none) active ∧
    List.Sorted StrLe (GetAllDevices active none) := by
  refine ⟨rfl, rfl, ?_, pySorted_perm active, pySorted_sorted active⟩
  intro h
  have ha : active.isEmpty = false := by
    cases active with
    | nil => exact absurd rfl h
    | cons a as => rfl
  simp [GetAllDevices, ha]

theorem C2_fallback_to_active_witness :
    GetAllDevices ["B", "A"] (some (Except.ok [])) = ["A", "B"] ∧
    GetAllDevices ["B", "A"] none = ["A", "B"] ∧
    GetAllDevices ["B", "A"] (some (Except.error ())) = ["A", "B"] :=
  ⟨((C2_fallback_to_active ["B", "A"] ()).2.2.1 (by decide)).trans (by decide),
   ((C2_fallback_to_active ["B", "A"] ()).1).trans (by decide),
   ((C2_fallback_to_active ["B", "A"] ()).2.1).trans (by decide)⟩

/-- C7: for every provided (truthy) single-step command, step-plan loading
yields the plan with version 1 and exactly the one step "single_step",
device affinity 0 and the input command. -/
theorem C7_single_step_plan (opts : TestOptions) (env : Env)
    (cmd : List String) (hc : opts.single_step = some cmd) (hne : cmd ≠ []) :
    GetStepsDict opts env = Except.ok (some
      { version := some 1,
        steps := some [("single_step",
          { device_affinity := 0, cmd := cmd })] }) := by
  have ht : optCmdTruthy (some cmd) = true := by
    cases cmd with
    | nil => exact absurd rfl hne
    | cons a as => rfl
  simp [GetStepsDict, GetStepsDictFromSingleStep, hc, ht]

theorem C7_single_step_plan_witness :
    GetStepsDict
      { single_step := some ["echo", "hi"], steps := none, flaky_steps := none,
        test_filter := none, known_devices_file := none }
      { rosterLoad := Except.ok [], stepsLoad := Except.error ReadErr.ioError,
        flakyLoad := Except.error ReadErr.ioError } =
    Except.ok (some
      { version := some 1,
        steps := some [("single_step",
          { device_affinity := 0, cmd := ["echo", "hi"] })] }) :=
  C7_single_step_plan _ _ ["echo", "hi"] rfl (by decide)

/-- C4 counterexample: with neither a single-step command nor a steps
file, `_GetStepsDict` does not fail at all — it returns Python `None`
(silent absence), refuting that loading fails with a validation error. -/
theorem C4_counterexample :
    GetStepsDict
      { single_step := none, steps := none, flaky_steps := none,
        test_filter := none, known_devices_file := none }
      { rosterLoad := Except.ok [], stepsLoad := Except.error ReadErr.ioError,
        flakyLoad := Except.error ReadErr.ioError } = Except.ok none := rfl

/-- C4 amended: when neither step source is provided, step-plan loading
returns no plan at all (Python `None`), and `Setup` subsequently fails
with a raw `TypeError` when subscripting it — not with a configuration
validation error. -/
theorem C4_no_source_is_silent (opts : TestOptions) (active : List String)
    (env : Env) (h1 : optCmdTruthy opts.single_step = false)
    (h2 : optStrTruthy opts.steps = false) :
    GetStepsDict opts env = Except.ok none ∧
    Setup opts active env = Except.error PyErr.typeError ∧
    PyErr.typeError.isConfigValidation = false := by
  have hG : GetStepsDict opts env = Except.ok none := by
    simp [GetStepsDict, h1, h2]
  refine ⟨hG, ?_, rfl⟩
  unfold Setup
  rw [hG]

theorem C4_no_source_is_silent_witness :
    GetStepsDict
      { single_step := none, steps := none, flaky_steps := none,
        test_filter := none, known_devices_file := none }
      { rosterLoad := Except.ok [], stepsLoad := Except.error ReadErr.ioError,
        flakyLoad := Except.error ReadErr.ioError } = Except.ok none ∧
    Setup
      { single_step := none, steps := none, flaky_steps := none,
        test_filter := none, known_devices_file := none } ["A"]
      { rosterLoad := Except.ok [], stepsLoad := Except.error ReadErr.ioError,
        flakyLoad := Except.error ReadErr.ioError } =
      Except.error PyErr.typeError ∧
    PyErr.typeError.isConfigValidation = false :=
  C4_no_source_is_silent _ ["A"] _ rfl rfl

/-- C5: a steps file parsing to a document with no version key fails with
`KeyError` (the subscript `steps['version']`), and one with a version ≠ 1
fails the `assert` (`AssertionError`); both are the code's configuration
validation failures — they abort loading and are classified as validation
errors, unlike the raw I/O error kinds. -/
theorem C5_version_validated (opts : TestOptions) (env : Env)
    (doc : StepsDict) (h1 : optCmdTruthy opts.single_step = false)
    (h2 : optStrTruthy opts.steps = true)
    (hload : env.stepsLoad = Except.ok doc) :
    (doc.version = none →
      GetStepsDict opts env = Except.error PyErr.keyError) ∧
    (∀ v : Int, doc.version = some v → v ≠ 1 →
      GetStepsDict opts env = Except.error PyErr.assertionError) ∧
    PyErr.keyError.isConfigValidation = true ∧
    PyErr.assertionError.isConfigValidation = true := by
  refine ⟨?_, ?_, rfl, rfl⟩
  · intro hv
    simp [GetStepsDict, h1, h2, hload, hv]
  · intro v hv hne
    simp [GetStepsDict, h1, h2, hload, hv, hne]

/-- Concrete options naming only a steps file, for the C5 witness. -/
def stepsOnlyOpts : TestOptions :=
  { single_step := none, steps := some "steps.json", flaky_steps := none,
    test_filter := none, known_devices_file := none }

/-- Concrete environment whose steps file parses with no version key. -/
def noVersionEnv : Env :=
  { rosterLoad := Except.ok [],
    stepsLoad := Except.ok { version := none, steps := some [] },
    flakyLoad := Except.error ReadErr.ioError }

/-- Concrete environment whose steps file parses with version 2. -/
def versionTwoEnv : Env :=
  { rosterLoad := Except.ok [],
    stepsLoad := Except.ok { version := some 2, steps := some [] },
    flakyLoad := Except.error ReadErr.ioError }

theorem C5_version_validated_witness :
    GetStepsDict stepsOnlyOpts noVersionEnv = Except.error PyErr.keyError ∧
    GetStepsDict stepsOnlyOpts versionTwoEnv = Except.error PyErr.assertionError :=
  ⟨(C5_version_validated stepsOnlyOpts noVersionEnv
      { version := none, steps := some [] } rfl rfl rfl).1 rfl,
   (C5_version_validated stepsOnlyOpts versionTwoEnv
      { version := some 2, steps := some [] } rfl rfl rfl).2.1 2 rfl (by decide)⟩

/-- C6 counterexample: an `IOError` while reading the steps file surfaces
to the caller as the raw I/O error kind, not as a configuration
validation error, refuting that such failures are wrapped. -/
theorem C6_counterexample :
    GetStepsDict
      { single_step := none, steps := some "steps.json", flaky_steps := none,
        test_filter := none, known_devices_file := none }
      { rosterLoad := Except.ok [], stepsLoad := Except.error ReadErr.ioError,
        flakyLoad := Except.error ReadErr.ioError } =
      Except.error PyErr.ioError ∧
    PyErr.ioError.isConfigValidation = false := ⟨rfl, rfl⟩

/-- C6 amended: read/parse failures of the steps source propagate raw
(`IOError` from `file(...)`, `ValueError` from `json.load`) out of both
the loader and `Setup`, and flaky-steps read/parse failures propagate raw
as well; none of them is a configuration validation error. -/
theorem C6_read_failures_raw (opts : TestOptions) (active : List String)
    (env : Env) (e : ReadErr) (h1 : optCmdTruthy opts.single_step = false)
    (h2 : optStrTruthy opts.steps = true)
    (hload : env.stepsLoad = Except.error e) :
    (GetStepsDict opts env = Except.error e.toPyErr ∧
     Setup opts active env = Except.error e.toPyErr ∧
     e.toPyErr.isConfigValidation = false) ∧
    (∀ e2 : ReadErr, optStrTruthy opts.flaky_steps = true →
      env.flakyLoad = Except.error e2 →
      flakyResult opts env = Except.error e2.toPyErr ∧
      e2.toPyErr.isConfigValidation = false) := by
  have hG : GetStepsDict opts env = Except.error e.toPyErr := by
    simp [GetStepsDict, h1, h2, hload]
  refine ⟨⟨hG, ?_, ?_⟩, ?_⟩
  · unfold Setup
    rw [hG]
  · cases e <;> rfl
  · intro e2 hf hl
    refine ⟨?_, ?_⟩
    · simp [flakyResult, hf, hl]
    · cases e2 <;> rfl

/-- Concrete options naming a steps file and a flaky-steps file, for the
C6 witness. -/
def bothFilesOpts : TestOptions :=
  { single_step := none, steps := some "steps.json",
    flaky_steps := some "flaky.json", test_filter := none,
    known_devices_file := none }

/-- Concrete environment where reading the steps file raises `IOError` and
parsing the flaky file raises `ValueError`. -/
def failingEnv : Env :=
  { rosterLoad := Except.ok [], stepsLoad := Except.error ReadErr.ioError,
    flakyLoad := Except.error ReadErr.valueError }

theorem C6_read_failures_raw_witness :
    (GetStepsDict bothFilesOpts failingEnv = Except.error PyErr.ioError ∧
      Setup bothFilesOpts ["A"] failingEnv = Except.error PyErr.ioError ∧
      PyErr.ioError.isConfigValidation = false) ∧
    flakyResult bothFilesOpts failingEnv = Except.error PyErr.valueError ∧
    PyErr.valueError.isConfigValidation = false :=
  ⟨(C6_read_failures_raw bothFilesOpts ["A"] failingEnv ReadErr.ioError
      rfl rfl rfl).1,
   ((C6_read_failures_raw bothFilesOpts ["A"] failingEnv ReadErr.ioError
      rfl rfl rfl).2 ReadErr.valueError rfl rfl).1,
   ((C6_read_failures_raw bothFilesOpts ["A"] failingEnv ReadErr.ioError
      rfl rfl rfl).2 ReadErr.valueError rfl rfl).2⟩

/-- C8 counterexample: the glob "*a*" also matches "beta" (its last
character is an a), so filtering ["alpha","beta","gamma"] with "*a*" does
not return ["alpha","gamma"]. -/
theorem C8_counterexample :
    filterSteps ["alpha", "beta", "gamma"] (some "*a*") ≠ ["alpha", "gamma"] := by
  decide

/-- C8 amended: an absent pattern leaves the step names unchanged; with a
pattern the result is the order-preserving, case-sensitive glob-matching
subsequence — which for "*a*" over ["alpha","beta","gamma"] is all three
names, since "beta" contains an "a" as well; an empty result (for
instance under the case-mismatching "*A*") is an ordinary value, not an
error. -/
theorem C8_filter_glob :
    (∀ names : List String, filterSteps names none = names) ∧
    (∀ (names : List String) (p : String),
      List.Sublist (filterSteps names (some p)) names) ∧
    filterSteps ["alpha", "beta", "gamma"] (some "*a*") =
      ["alpha", "beta", "gamma"] ∧
    filterSteps ["alpha", "beta", "gamma"] (some "*m*") = ["gamma"] ∧
    filterSteps ["alpha", "beta", "gamma"] (some "*A*") = [] := by
  refine ⟨fun names => rfl, ?_, by decide, by decide, by decide⟩
  intro names p
  unfold filterSteps
  split
  · exact List.filter_sublist names
  · exact List.Sublist.refl names

/-- C3: the factory of a successful `Setup` yields no runner for a device
outside the active set, and for an active device a binding whose total
device count is the length of the resolved device list — not the size of
the active set — the same for every device and every shard index, since
it is fixed by the list captured when the factory was built. -/
theorem C3_factory_contract (opts : TestOptions) (active : List String)
    (env : Env) (res : SetupReturn) (h : Setup opts active env = Except.ok res)
    (sd : StepsDict) (hsd : GetStepsDict opts env = Except.ok (some sd))
    (fl : List String) (hfl : flakyResult opts env = Except.ok fl)
    (device : String) (idx : Int) :
    res.factory device idx =
      if device ∈ active then
        some { options := opts, device := device, shard_index := idx,
               num_devices := res.devices.length, steps_dict := sd,
               flaky_steps := fl }
      else none := by
  obtain ⟨sd2, smap, fl2, hG, hs, hF, hfac, ht, hd⟩ :=
    Setup_ok opts active env res h
  have hsd2 : sd2 = sd := by
    have := hG.symm.trans hsd
    simpa using this
  have hfl2 : fl2 = fl := by
    have := hF.symm.trans hfl
    simpa using this
  subst hsd2
  subst hfl2
  rw [hfac, hd]
  rfl

/-- Concrete inputs for the factory witnesses: a single-step command, a
roster loading ["B","A"], active devices ["A","C"]. -/
def affinityOpts : TestOptions :=
  { single_step := some ["echo", "hi"], steps := none, flaky_steps := none,
    test_filter := none, known_devices_file := some "known_devices.json" }

def affinityEnv : Env :=
  { rosterLoad := Except.ok ["B", "A"], stepsLoad := Except.error ReadErr.ioError,
    flakyLoad := Except.error ReadErr.ioError }

def affinityPlan : StepsDict := GetStepsDictFromSingleStep affinityOpts

/-- The value `Setup affinityOpts ["A","C"] affinityEnv` returns: the
resolved devices are the sorted roster ["A","B"], the single step name
survives, and the factory captures the full plan. -/
def affinityRes : SetupReturn :=
  { factory := TestRunnerFactory affinityOpts ["A", "C"] ["A", "B"] affinityPlan [],
    tests := ["single_step"],
    devices := ["A", "B"] }

theorem C3_factory_contract_witness :
    affinityRes.factory "B" 0 = none ∧
    affinityRes.factory "A" 5 =
      some { options := affinityOpts, device := "A", shard_index := 5,
             num_devices := 2, steps_dict := affinityPlan, flaky_steps := [] } :=
  ⟨(C3_factory_contract affinityOpts ["A", "C"] affinityEnv affinityRes rfl
      affinityPlan rfl [] rfl "B" 0).trans (by decide),
   (C3_factory_contract affinityOpts ["A", "C"] affinityEnv affinityRes rfl
      affinityPlan rfl [] rfl "A" 5).trans (by decide)⟩

/-- C9: the factory performs no validation of the shard index: for every
integer index — negative or at least the total device count alike — an
active device receives a binding carrying that index unchanged. -/
theorem C9_shard_index_unchecked (opts : TestOptions) (active : List String)
    (env : Env) (res : SetupReturn) (h : Setup opts active env = Except.ok res)
    (sd : StepsDict) (hsd : GetStepsDict opts env = Except.ok (some sd))
    (fl : List String) (hfl : flakyResult opts env = Except.ok fl)
    (device : String) (hd : device ∈ active) (idx : Int) :
    res.factory device idx =
      some { options := opts, device := device, shard_index := idx,
             num_devices := res.devices.length, steps_dict := sd,
             flaky_steps := fl } := by
  obtain ⟨sd2, smap, fl2, hG, hs, hF, hfac, ht, hdv⟩ :=
    Setup_ok opts active env res h
  have hsd2 : sd2 = sd := by
    have := hG.symm.trans hsd
    simpa using this
  have hfl2 : fl2 = fl := by
    have := hF.symm.trans hfl
    simpa using this
  subst hsd2
  subst hfl2
  rw [hfac, hdv]
  unfold TestRunnerFactory
  rw [if_pos hd]

theorem C9_shard_index_unchecked_witness :
    affinityRes.factory "A" (-7) =
      some { options := affinityOpts, device := "A", shard_index := -7,
             num_devices := 2, steps_dict := affinityPlan, flaky_steps := [] } ∧
    affinityRes.factory "C" 99 =
      some { options := affinityOpts, device := "C", shard_index := 99,
             num_devices := 2, steps_dict := affinityPlan, flaky_steps := [] } :=
  ⟨(C9_shard_index_unchecked affinityOpts ["A", "C"] affinityEnv affinityRes rfl
      affinityPlan rfl [] rfl "A" (by decide) (-7)).trans (by decide),
   (C9_shard_index_unchecked affinityOpts ["A", "C"] affinityEnv affinityRes rfl
      affinityPlan rfl [] rfl "C" (by decide) 99).trans (by decide)⟩

/-- C10: name filtering only affects the returned step-name list; the
plan captured in every runner binding the factory produces is the full,
unfiltered steps document from the loader, identical for every
(device, shard index) pair, steps excluded by the filter included. -/
theorem C10_full_plan_in_bindings (opts : TestOptions) (active : List String)
    (env : Env) (res : SetupReturn) (h : Setup opts active env = Except.ok res)
    (sd : StepsDict) (hsd : GetStepsDict opts env = Except.ok (some sd))
    (d1 : String) (i1 : Int) (tr1 : TestRunner)
    (h1 : res.factory d1 i1 = some tr1)
    (d2 : String) (i2 : Int) (tr2 : TestRunner)
    (h2 : res.factory d2 i2 = some tr2) :
    tr1.steps_dict = sd ∧ tr2.steps_dict = tr1.steps_dict := by
  obtain ⟨sd2, smap, fl, hG, hs, hF, hfac, ht, hd⟩ :=
    Setup_ok opts active env res h
  have hsd2 : sd2 = sd := by
    have := hG.symm.trans hsd
    simpa using this
  rw [hsd2] at hfac
  rw [hfac] at h1 h2
  unfold TestRunnerFactory at h1 h2
  have e1 : tr1.steps_dict = sd := by
    split at h1
    · cases h1; rfl
    · cases h1
  have e2 : tr2.steps_dict = sd := by
    split at h2
    · cases h2; rfl
    · cases h2
  exact ⟨e1, e2.trans e1.symm⟩

/-- Concrete inputs for the C10 witness: a two-step plan and a filter
keeping only the names starting with an a. -/
def filteringOpts : TestOptions :=
  { single_step := none, steps := some "steps.json", flaky_steps := none,
    test_filter := some "a*", known_devices_file := none }

def twoStepPlan : StepsDict :=
  { version := some 1,
    steps := some [("beta", { device_affinity := 1, cmd := ["b"] }),
                   ("alpha", { device_affinity := 0, cmd := ["a"] })] }

def filteringEnv : Env :=
  { rosterLoad := Except.ok [], stepsLoad := Except.ok twoStepPlan,
    flakyLoad := Except.error ReadErr.ioError }

/-- The value `Setup filteringOpts ["A"] filteringEnv` returns: only
"alpha" survives the filter, while the factory captures the full
two-step plan. -/
def filteringRes : SetupReturn :=
  { factory := TestRunnerFactory filteringOpts ["A"] ["A"] twoStepPlan [],
    tests := ["alpha"],
    devices := ["A"] }

theorem C10_full_plan_in_bindings_witness :
    filteringRes.factory "A" 0 =
      some { options := filteringOpts, device := "A", shard_index := 0,
             num_devices := 1, steps_dict := twoStepPlan, flaky_steps := [] } ∧
    ({ options := filteringOpts, device := "A", shard_index := 0,
       num_devices := 1, steps_dict := twoStepPlan,
       flaky_steps := [] } : TestRunner).steps_dict = twoStepPlan ∧
    filteringRes.tests = ["alpha"] :=
  ⟨by decide,
   (C10_full_plan_in_bindings filteringOpts ["A"] filteringEnv filteringRes rfl
      twoStepPlan rfl "A" 0
      { options := filteringOpts, device := "A", shard_index := 0,
        num_devices := 1, steps_dict := twoStepPlan, flaky_steps := [] } rfl
      "A" 7
      { options := filteringOpts, device := "A", shard_index := 7,
        num_devices := 1, steps_dict := twoStepPlan, flaky_steps := [] } rfl).1,
   by decide⟩

end PerfSetup
